import Mathlib

/-!
Verification development for the Discord bot backend (`app.py`).

The Flask endpoints are shallowly embedded as pure functions.  Each endpoint
function takes, as explicit arguments, the data the handler reads from its
environment: the relevant request fields (already extracted from the parsed
JSON body, as the handler itself does via `data.get(...)`), the relevant
environment variables (`os.environ.get` results, as `Option String`), and an
*upstream oracle* describing what the single outbound `requests` call to the
Discord API would return (either a transport exception carrying `str(e)`, or a
response with a status code, a body text, and the result of `.json()` when the
body parses).  Each endpoint returns the HTTP reply it produces together with
the number of outbound calls it performed, so that "no network call is made"
claims are expressible.  An unhandled Python exception inside a handler is
modelled by an explicit `crash` outcome carrying the exception class name.
-/

set_option autoImplicit false

namespace DiscordBackend

/-- Values of the JSON / Python data model manipulated by the handlers:
strings, integers, booleans, `None`, lists and string-keyed dictionaries
(every JSON object key is a string, and the stats dictionary in the source
only ever holds string keys). -/
inductive PyVal where
  | str (s : String)
  | int (n : Int)
  | bool (b : Bool)
  | null
  | list (l : List PyVal)
  | dict (d : List (String × PyVal))

/-- A Python dictionary with string keys, as an association list in key
insertion order (Python dictionaries preserve insertion order). -/
abbrev Dict := List (String × PyVal)

/-- Python truthiness (`bool(v)`): empty strings, zero, `False`, `None` and
empty collections are falsy. -/
def pyTruthy : PyVal → Bool
  | .str s => !s.isEmpty
  | .int n => n != 0
  | .bool b => b
  | .null => false
  | .list l => !l.isEmpty
  | .dict d => !d.isEmpty

/-- Truthiness of an optional value, `None` (absence) being falsy. -/
def pyTruthyO : Option PyVal → Bool
  | none => false
  | some v => pyTruthy v

/-- Truthiness of an optional string (e.g. an `os.environ.get` result):
falsy when absent or empty. -/
def pyTruthyS : Option String → Bool
  | none => false
  | some s => !s.isEmpty

/-- Dictionary assignment `d[k] = v`: replaces the value of an existing key
in place, appends a new key at the end (Python dict semantics). -/
def dictSet {α : Type} : List (String × α) → String → α → List (String × α)
  | [], k, v => [(k, v)]
  | (k', v') :: rest, k, v =>
      if k' = k then (k, v) :: rest else (k', v') :: dictSet rest k v

/-- Dictionary lookup, `d.get(k)` / `d[k]` as an `Option`: the value at the
first (and, under the insertion-order invariant, only) entry for the key. -/
def dictGet {α : Type} : List (String × α) → String → Option α
  | [], _ => none
  | (k', v) :: rest, k => if k' = k then some v else dictGet rest k

/-- Key membership test `k in d` for a dictionary. -/
def hasKey (d : Dict) (k : String) : Bool :=
  d.any (fun p => p.1 = k)

/-- Python string slicing `s[:n]`: the first `n` characters. -/
def pyTake (s : String) (n : Nat) : String :=
  ⟨s.data.take n⟩

/-- Keyword-wise merge `d.update(patch)` for a dictionary patch: iterate over
the patch entries and assign each into `d`. -/
def dictUpdate (d : Dict) (patch : Dict) : Dict :=
  patch.foldl (fun acc p => dictSet acc p.1 p.2) d

/-! ## Upstream model -/

/-- Outcome of one outbound `requests` call: a transport exception carrying
`str(e)`, or a reachable response with status code, body text (`r.text`,
with `r.content` modelled by the same string) and the parsed JSON value
when `r.json()` succeeds (`none` when it raises). -/
inductive Upstream where
  | exc (msg : String)
  | resp (status : Nat) (text : String) (json : Option PyVal)

/-! ## `POST /bot/guilds_status` (`bot_guilds_status`) -/

/-- The three collections built by the guild-presence loop: `present` and
`missing` lists (in input order) and the `errors` dictionary mapping a guild
id to an error description. -/
structure GuildsStatusResult where
  present : List String
  missing : List String
  errors : List (String × String)
deriving DecidableEq, Repr

/-- Result of the `/bot/guilds_status` handler: a 500 configuration-error
reply when a bot credential is missing, otherwise the three collections. -/
inductive BgsOut where
  | configError (status : Nat) (error : String)
  | ok (r : GuildsStatusResult)
deriving DecidableEq, Repr

/-- One iteration of the per-guild loop in `bot_guilds_status`: status 200
appends to `present`, 404 appends to `missing`, any other status records
`status=<code> body=<text truncated to 300 characters>` in `errors`, and a
transport exception records `str(e)` in `errors` and continues. -/
def bgsStep (oracle : String → Upstream) (acc : GuildsStatusResult) (gid : String) :
    GuildsStatusResult :=
  match oracle gid with
  | .resp status text _ =>
      if status = 200 then { acc with present := acc.present ++ [gid] }
      else if status = 404 then { acc with missing := acc.missing ++ [gid] }
      else { acc with
              errors := dictSet acc.errors gid
                ("status=" ++ toString status ++ " body=" ++ pyTake text 300) }
  | .exc m => { acc with errors := dictSet acc.errors gid m }

/-- The `/bot/guilds_status` handler: with `data.get('guild_ids') or []`
already extracted as `guild_ids`, it checks the two bot credentials for
truthiness (the third combined check in the source is unreachable) and then
folds the per-guild loop over the ids, starting from empty collections. -/
def bot_guilds_status (bot_token bot_id : Option String) (guild_ids : List String)
    (oracle : String → Upstream) : BgsOut :=
  if !pyTruthyS bot_token then .configError 500 "DISCORD_BOT_TOKEN not configured"
  else if !pyTruthyS bot_id then .configError 500 "DISCORD_BOT_ID not configured"
  else .ok (guild_ids.foldl (bgsStep oracle) ⟨[], [], []⟩)

/-- How a single guild id is classified by the loop body, as a function of
that id's upstream outcome alone. -/
inductive GuildClass where
  | present
  | missing
  | err (msg : String)
deriving DecidableEq, Repr

/-- Classification of one upstream outcome, mirroring the branch structure of
the loop body of `bot_guilds_status`. -/
def classifyGuild : Upstream → GuildClass
  | .resp status text _ =>
      if status = 200 then .present
      else if status = 404 then .missing
      else .err ("status=" ++ toString status ++ " body=" ++ pyTake text 300)
  | .exc m => .err m

def isPresC : GuildClass → Bool
  | .present => true
  | _ => false

def isMissC : GuildClass → Bool
  | .missing => true
  | _ => false

def errMsgC : GuildClass → Option String
  | .err m => some m
  | _ => none

/-- Statement that a guild id landed in exactly the collection prescribed by
a classification, and in neither of the other two. -/
def classifiedIn (r : GuildsStatusResult) (gid : String) : GuildClass → Prop
  | .present => gid ∈ r.present ∧ gid ∉ r.missing ∧ dictGet r.errors gid = none
  | .missing => gid ∉ r.present ∧ gid ∈ r.missing ∧ dictGet r.errors gid = none
  | .err m => gid ∉ r.present ∧ gid ∉ r.missing ∧ dictGet r.errors gid = some m

/-! ## `POST /oauth/exchange` (`oauth_exchange`) -/

/-- Shapes of the JSON reply bodies produced by `oauth_exchange`:
the plain error object, the transport-error object with `details`, the
invalid-JSON error with the raw upstream text, the upstream-rejection error
with the extracted error value and the parsed body as `raw`, and the success
pass-through of the parsed payload. -/
inductive ExchBody where
  | errSimple (error : String)
  | errDetails (error : String) (details : String)
  | errRaw (error : String) (raw : String)
  | errData (error : PyVal) (raw : PyVal)
  | payload (v : PyVal)

/-- Result of the `/oauth/exchange` handler: an HTTP reply, or an unhandled
Python exception escaping the handler (reported by Flask as a 500). -/
inductive ExchOut where
  | reply (status : Nat) (body : ExchBody)
  | crash (exnClass : String)

/-- Substring test, modelling Python's `sub in s` for strings. -/
def strContains (s sub : String) : Bool :=
  (List.range (s.data.length + 1)).any (fun i => sub.data.isPrefixOf (s.data.drop i))

/-- Python's `'error' in data` on an arbitrary value: key membership for a
dictionary, element membership for a list (only a string element can compare
equal to `'error'`), substring test for a string, and a `TypeError` (`none`)
for non-iterable values. -/
def pyInError : PyVal → Option Bool
  | .dict d => some (hasKey d "error")
  | .list l => some (l.any (fun v => match v with | .str s => s = "error" | _ => false))
  | .str s => some (strContains s "error")
  | _ => none

/-- Python `a or b` on values: `a` if truthy, else `b`. -/
def pyOrV (a b : PyVal) : PyVal :=
  if pyTruthy a then a else b

/-- The value `data.get('k')` with `None` for a missing key. -/
def getOrNull (d : Dict) (k : String) : PyVal :=
  (dictGet d k).getD .null

/-- The error value surfaced on upstream rejection:
`data.get('error_description') or data.get('error') or 'Unknown error'`. -/
def errVal (d : Dict) : PyVal :=
  pyOrV (getOrNull d "error_description")
    (pyOrV (getOrNull d "error") (.str "Unknown error"))

/-- The `/oauth/exchange` handler.  `code` and `redirect_uri` are the
`data.get(...)` results from the request body; `client_id` and
`client_secret` are the `os.environ.get(...)` results; `up` is the outcome
the Discord token endpoint would produce for the POST.  The second component
counts outbound calls.  Python's `or` short-circuit in
`resp.status_code != 200 or 'error' in data` is modelled by testing the
status first; `data.get(...)` on a value without a `get` attribute raises
`AttributeError`, and `'error' in data` on a non-iterable raises
`TypeError`. -/
def oauth_exchange (code redirect_uri : Option PyVal) (client_id client_secret : Option String)
    (up : Upstream) : ExchOut × Nat :=
  if !pyTruthyO code || !pyTruthyO redirect_uri then
    (.reply 400 (.errSimple "missing code or redirect_uri"), 0)
  else if !pyTruthyS client_id || !pyTruthyS client_secret then
    (.reply 500 (.errSimple
      "server missing OAuth client credentials (set DISCORD_CLIENT_ID and DISCORD_CLIENT_SECRET)"), 0)
  else
    match up with
    | .exc m => (.reply 502 (.errDetails "failed to contact Discord token endpoint" m), 1)
    | .resp status text json =>
      match json with
      | none =>
          (.reply status (.errRaw "Discord token endpoint returned invalid response" text), 1)
      | some data =>
          if status ≠ 200 then
            match data with
            | .dict d => (.reply status (.errData (errVal d) (.dict d)), 1)
            | _ => (.crash "AttributeError", 1)
          else
            match pyInError data with
            | none => (.crash "TypeError", 1)
            | some hasErr =>
                if hasErr then
                  match data with
                  | .dict d => (.reply status (.errData (errVal d) (.dict d)), 1)
                  | _ => (.crash "AttributeError", 1)
                else (.reply 200 (.payload data), 1)

/-! ## `GET /oauth/me` (`oauth_me`) and `GET /oauth/guilds` (`oauth_guilds`) -/

/-- Shapes of the JSON reply bodies produced by the two bearer-token proxy
endpoints: a bare error object, an error object with `details`, or the
re-wrapped parsed value. -/
inductive JsonBody where
  | errObj (error : String)
  | errWith (error : String) (details : String)
  | okVal (v : PyVal)

/-- Result of a bearer-token proxy handler: a `jsonify` reply, a raw
pass-through reply `(r.content, r.status_code, dict(r.headers))`, or an
unhandled Python exception escaping the handler. -/
inductive WebOut where
  | json (status : Nat) (body : JsonBody)
  | raw (status : Nat) (content : String)
  | crash (exnClass : String)

/-- ASCII lowering, modelling `str.lower()` on the header values involved. -/
def pyLower (s : String) : String :=
  ⟨s.data.map Char.toLower⟩

/-- Python whitespace for `str.split()` with no separator. -/
def isPySpace (c : Char) : Bool :=
  c = ' ' || c = '\t' || c = '\n' || c = '\r' || c = '\x0b' || c = '\x0c'

/-- Python `s.split(None, 1)`: skip leading whitespace, take the first
whitespace-delimited chunk, then the remainder with its leading whitespace
stripped; empty chunks are never produced. -/
def pySplitNone1 (s : String) : List String :=
  let cs := s.data.dropWhile isPySpace
  if cs.isEmpty then []
  else
    let first := cs.takeWhile (fun c => !isPySpace c)
    let rest := (cs.dropWhile (fun c => !isPySpace c)).dropWhile isPySpace
    if rest.isEmpty then [⟨first⟩] else [⟨first⟩, ⟨rest⟩]

/-- The shared header guard
`not auth or not auth.lower().startswith('bearer ')` of the two
bearer-token endpoints. -/
def bearerAuthFails : Option String → Bool
  | none => true
  | some a => a.isEmpty || !("bearer ".data.isPrefixOf (pyLower a).data)

/-- The 401 error message shared by the two bearer-token endpoints. -/
def authErrMsg : String :=
  "missing Authorization: Bearer <token> header"

/-- The `/oauth/me` handler.  `auth` is the `Authorization` header (absent or
its value); `up` maps the extracted token to the outcome of the GET to the
Discord current-user endpoint.  After the header guard, the token is
`auth.split(None, 1)[1]`, which raises `IndexError` when the split yields a
single chunk.  A `ValueError` from `r.json()` is caught and mapped to a 502
with the first 200 characters of the raw text; a parsed non-dictionary value
raises `AttributeError` in the logging call `response_data.get('username',
'unknown')`; a parsed dictionary is re-wrapped with status 200. -/
def oauth_me (auth : Option String) (up : String → Upstream) : WebOut × Nat :=
  if bearerAuthFails auth then (.json 401 (.errObj authErrMsg), 0)
  else
    match auth with
    | none => (.json 401 (.errObj authErrMsg), 0)
    | some a =>
      match (pySplitNone1 a).get? 1 with
      | none => (.crash "IndexError", 0)
      | some token =>
        match up token with
        | .exc m => (.json 502 (.errWith "failed to contact Discord API" m), 1)
        | .resp _ t none =>
            (.json 502 (.errWith "invalid response from Discord" (pyTake t 200)), 1)
        | .resp _ _ (some (.dict d)) => (.json 200 (.okVal (.dict d)), 1)
        | .resp _ _ (some _) => (.crash "AttributeError", 1)

/-- The `/oauth/guilds` handler: same header guard and token extraction as
`oauth_me`, same 502 mapping of a transport exception, but any reachable
response is passed through raw as `(r.content, r.status_code,
dict(r.headers))` without parsing. -/
def oauth_guilds (auth : Option String) (up : String → Upstream) : WebOut × Nat :=
  if bearerAuthFails auth then (.json 401 (.errObj authErrMsg), 0)
  else
    match auth with
    | none => (.json 401 (.errObj authErrMsg), 0)
    | some a =>
      match (pySplitNone1 a).get? 1 with
      | none => (.crash "IndexError", 0)
      | some token =>
        match up token with
        | .exc m => (.json 502 (.errWith "failed to contact Discord API" m), 1)
        | .resp s t _ => (.raw s t, 1)

/-! ## `GET /stats` (`stats`) and `POST /update_stats` (`update_stats`) -/

/-- The initial in-memory stats dictionary of the process. -/
def bot_stats_init : Dict :=
  [("bot_name", .str "Whiteout Survival"), ("servers", .int 0),
   ("users", .int 0), ("uptime", .str "Starting...")]

/-- The uptime string computed by `/stats` from the elapsed whole seconds
since process start: integer hours and integer minutes. -/
def fmtUptime (uptimeSeconds : Nat) : String :=
  toString (uptimeSeconds / 3600) ++ "h " ++ toString (uptimeSeconds % 3600 / 60) ++ "m"

/-- The `/stats` handler: writes the freshly formatted uptime into the shared
stats dictionary and returns the (updated) dictionary as the reply body.
Returns `(new shared dictionary, reply body)`. -/
def statsGet (elapsedSeconds : Nat) (m : Dict) : Dict × Dict :=
  let m2 := dictSet m "uptime" (.str (fmtUptime elapsedSeconds))
  (m2, m2)

/-- Result of the `/update_stats` handler: the success reply carrying the
full updated dictionary, or an unhandled Python exception escaping the
handler. -/
inductive UpdOut where
  | success (updated : Dict)
  | crash

/-- Conversion of one element of a non-dictionary iterable passed to
`dict.update`, which Python requires to be a sequence of exactly two items:
a two-character string yields the pair of its characters, a two-element list
whose head is a string yields that pair, and anything else raises.  (Pair
sequences with a non-string key are also modelled as a failure; the stats
dictionary of this program only holds string keys.) -/
def seqElemToPair : PyVal → Option (String × PyVal)
  | .str s =>
      match s.data with
      | [a, b] => some (⟨[a]⟩, .str ⟨[b]⟩)
      | _ => none
  | .list [.str k, v] => some (k, v)
  | _ => none

/-- `dict.update` fed a list: pairs are assigned one element at a time until
a bad element raises, leaving the assignments made so far in place.  Returns
the (possibly partially) updated dictionary and whether an exception was
raised. -/
def updFromPairs : Dict → List PyVal → Dict × Bool
  | d, [] => (d, false)
  | d, v :: rest =>
      match seqElemToPair v with
      | some (k, val) => updFromPairs (dictSet d k val) rest
      | none => (d, true)

/-- The `/update_stats` handler: `data = request.json or {}` (an absent or
falsy body becomes the empty dictionary), then `bot_stats.update(data)`.
A dictionary merges key-by-key; a list is consumed as a pair sequence and
can raise midway; a non-empty string raises `ValueError` on its first
one-character element; any other truthy value is not iterable and raises
`TypeError`.  Returns `(new shared dictionary, outcome)`. -/
def update_stats (stats : Dict) (body : Option PyVal) : Dict × UpdOut :=
  let data : PyVal :=
    match body with
    | none => .dict []
    | some v => if pyTruthy v then v else .dict []
  match data with
  | .dict p =>
      let d2 := dictUpdate stats p
      (d2, .success d2)
  | .list l =>
      match updFromPairs stats l with
      | (d2, false) => (d2, .success d2)
      | (d2, true) => (d2, .crash)
  | .str s => if s.isEmpty then (stats, .success stats) else (stats, .crash)
  | _ => (stats, .crash)

/-! ## Concrete oracles for witnesses and counterexamples -/

/-- Oracle for the partition witness: guild "A" gets 200, "B" gets 404,
anything else gets a 500 with body text `oops`. -/
def oraclePartitionW : String → Upstream :=
  fun g => if g = "A" then .resp 200 "" none
    else if g = "B" then .resp 404 "" none
    else .resp 500 "oops" none

/-- Oracle for the failure-isolation witness: guild "B" raises a transport
exception, every other guild gets 200. -/
def oracleIsolationW : String → Upstream :=
  fun g => if g = "B" then .exc "boom" else .resp 200 "" none

/-- Upstream returning a 500 with an unparseable body, for the comparison of
the two bearer-token endpoints. -/
def upUnparseable500 : String → Upstream :=
  fun _ => .resp 500 "<html>" none

/-- Upstream returning a parseable 200 object, for the empty-token probe. -/
def upOkEmptyObj : String → Upstream :=
  fun _ => .resp 200 "" (some (.dict []))

/-- Upstream returning a 401 whose body parses as an (empty) JSON array. -/
def upArray401 : String → Upstream :=
  fun _ => .resp 401 "[]" (some (.list []))

/-- Upstream raising a transport exception, for the transport-mapping
witness of the endpoint comparison. -/
def upExcW : String → Upstream :=
  fun _ => .exc "timeout"

/-- Upstream returning a Discord-style 401 error object, for the witness
that a parsed object is relayed as a 200. -/
def upObj401 : String → Upstream :=
  fun _ => .resp 401 "e" (some (.dict [("message", .str "401: Unauthorized")]))

/-! ## Dictionary lemmas -/

theorem dictGet_dictSet {α : Type} (d : List (String × α)) (k k' : String) (v : α) :
    dictGet (dictSet d k v) k' = if k' = k then some v else dictGet d k' := by
  induction d with
  | nil =>
      by_cases h : k = k'
      · subst h; simp [dictSet, dictGet]
      · have h' : ¬ k' = k := fun hc => h hc.symm
        simp [dictSet, dictGet, h, h']
  | cons p rest ih =>
      obtain ⟨k₀, v₀⟩ := p
      by_cases h0 : k₀ = k
      · subst h0
        by_cases h : k₀ = k'
        · subst h; simp [dictSet, dictGet]
        · have h' : ¬ k' = k₀ := fun hc => h hc.symm
          simp [dictSet, dictGet, h, h']
      · by_cases h : k₀ = k'
        · subst h
          have h' : ¬ k₀ = k := h0
          simp [dictSet, dictGet, h0, h']
        · simp [dictSet, dictGet, h0, h, ih]

/-! ## Characterization of the guild-presence loop -/

theorem bgsStep_classify (oracle : String → Upstream) (acc : GuildsStatusResult)
    (gid : String) :
    bgsStep oracle acc gid =
      match classifyGuild (oracle gid) with
      | .present => { acc with present := acc.present ++ [gid] }
      | .missing => { acc with missing := acc.missing ++ [gid] }
      | .err m => { acc with errors := dictSet acc.errors gid m } := by
  cases h : oracle gid with
  | exc m => simp [bgsStep, classifyGuild, h]
  | resp status text j =>
      by_cases h200 : status = 200
      · simp [bgsStep, classifyGuild, h, h200]
      · by_cases h404 : status = 404 <;> simp [bgsStep, classifyGuild, h, h200, h404]

theorem bgs_foldl_present (oracle : String → Upstream) (l : List String)
    (acc : GuildsStatusResult) :
    (l.foldl (bgsStep oracle) acc).present =
      acc.present ++ l.filter (fun g => isPresC (classifyGuild (oracle g))) := by
  induction l generalizing acc with
  | nil => simp
  | cons x rest ih =>
      rw [List.foldl_cons, ih, bgsStep_classify]
      cases h : classifyGuild (oracle x) <;>
        simp [isPresC, h, List.filter_cons]

theorem bgs_foldl_missing (oracle : String → Upstream) (l : List String)
    (acc : GuildsStatusResult) :
    (l.foldl (bgsStep oracle) acc).missing =
      acc.missing ++ l.filter (fun g => isMissC (classifyGuild (oracle g))) := by
  induction l generalizing acc with
  | nil => simp
  | cons x rest ih =>
      rw [List.foldl_cons, ih, bgsStep_classify]
      cases h : classifyGuild (oracle x) <;>
        simp [isMissC, h, List.filter_cons]

theorem bgs_foldl_errors (oracle : String → Upstream) (l : List String)
    (acc : GuildsStatusResult) (g : String) :
    dictGet (l.foldl (bgsStep oracle) acc).errors g =
      match errMsgC (classifyGuild (oracle g)) with
      | some m => if g ∈ l then some m else dictGet acc.errors g
      | none => dictGet acc.errors g := by
  induction l generalizing acc with
  | nil => cases h : errMsgC (classifyGuild (oracle g)) <;> simp [h]
  | cons x rest ih =>
      rw [List.foldl_cons, ih]
      by_cases hgx : g = x
      · subst hgx
        cases hc : classifyGuild (oracle g) with
        | present => simp [bgsStep_classify, hc, errMsgC]
        | missing => simp [bgsStep_classify, hc, errMsgC]
        | err m =>
            cases hmem : decide (g ∈ rest) <;>
              simp_all [bgsStep_classify, hc, errMsgC, dictGet_dictSet]
      · have hx : g ∈ x :: rest ↔ g ∈ rest := by
          constructor
          · intro h
            rcases List.mem_cons.mp h with h1 | h1
            · exact absurd h1 hgx
            · exact h1
          · exact fun h => List.mem_cons_of_mem x h
        cases hc : classifyGuild (oracle x) with
        | present =>
            cases hcg : errMsgC (classifyGuild (oracle g)) <;>
              simp [bgsStep_classify, hc, hcg, hx]
        | missing =>
            cases hcg : errMsgC (classifyGuild (oracle g)) <;>
              simp [bgsStep_classify, hc, hcg, hx]
        | err m =>
            have hset : dictGet (dictSet acc.errors x m) g = dictGet acc.errors g := by
              rw [dictGet_dictSet]; simp [hgx]
            cases hcg : errMsgC (classifyGuild (oracle g)) <;>
              simp [bgsStep_classify, hc, hcg, hx, hset]

theorem bgs_classified (oracle : String → Upstream) (ids : List String) (gid : String)
    (h : gid ∈ ids) :
    classifiedIn (ids.foldl (bgsStep oracle) ⟨[], [], []⟩) gid
      (classifyGuild (oracle gid)) := by
  have hp := bgs_foldl_present oracle ids ⟨[], [], []⟩
  have hm := bgs_foldl_missing oracle ids ⟨[], [], []⟩
  have he := bgs_foldl_errors oracle ids ⟨[], [], []⟩ gid
  cases hc : classifyGuild (oracle gid) with
  | present =>
      refine ⟨?_, ?_, ?_⟩
      · rw [hp]
        simp only [List.nil_append]
        exact List.mem_filter.mpr ⟨h, by simp [hc, isPresC]⟩
      · rw [hm]
        intro hmem
        simp only [List.nil_append] at hmem
        have := (List.mem_filter.mp hmem).2
        simp [hc, isMissC] at this
      · rw [he]; simp [hc, errMsgC, dictGet]
  | missing =>
      refine ⟨?_, ?_, ?_⟩
      · rw [hp]
        intro hmem
        simp only [List.nil_append] at hmem
        have := (List.mem_filter.mp hmem).2
        simp [hc, isPresC] at this
      · rw [hm]
        simp only [List.nil_append]
        exact List.mem_filter.mpr ⟨h, by simp [hc, isMissC]⟩
      · rw [he]; simp [hc, errMsgC, dictGet]
  | err m =>
      refine ⟨?_, ?_, ?_⟩
      · rw [hp]
        intro hmem
        simp only [List.nil_append] at hmem
        have := (List.mem_filter.mp hmem).2
        simp [hc, isPresC] at this
      · rw [hm]
        intro hmem
        simp only [List.nil_append] at hmem
        have := (List.mem_filter.mp hmem).2
        simp [hc, isMissC] at this
      · rw [he]; simp [hc, errMsgC, h]

/-! ## Claim C1 -/

/-- C1: with truthy bot credentials, `bot_guilds_status` classifies every
input guild id into exactly one of the three collections — into `present`
when its lookup returns 200, into `missing` when it returns 404, and into
`errors` otherwise, keyed by the id and carrying `status=<code>
body=<first 300 characters of the body>` for another status or `str(e)` for
a transport exception — and an empty `guild_ids` list yields three empty
collections rather than an error. -/
theorem C1_guild_presence_partition (bot_token bot_id : Option String)
    (hbt : pyTruthyS bot_token = true) (hbi : pyTruthyS bot_id = true)
    (guild_ids : List String) (oracle : String → Upstream) :
    ∃ r, bot_guilds_status bot_token bot_id guild_ids oracle = .ok r ∧
      (guild_ids = [] → r = ⟨[], [], []⟩) ∧
      ∀ gid ∈ guild_ids,
        (∀ t j, oracle gid = .resp 200 t j →
          gid ∈ r.present ∧ gid ∉ r.missing ∧ dictGet r.errors gid = none) ∧
        (∀ t j, oracle gid = .resp 404 t j →
          gid ∉ r.present ∧ gid ∈ r.missing ∧ dictGet r.errors gid = none) ∧
        (∀ s t j, oracle gid = .resp s t j → s ≠ 200 → s ≠ 404 →
          gid ∉ r.present ∧ gid ∉ r.missing ∧
            dictGet r.errors gid =
              some ("status=" ++ toString s ++ " body=" ++ pyTake t 300)) ∧
        (∀ m, oracle gid = .exc m →
          gid ∉ r.present ∧ gid ∉ r.missing ∧ dictGet r.errors gid = some m) := by
  refine ⟨guild_ids.foldl (bgsStep oracle) ⟨[], [], []⟩, ?_, ?_, ?_⟩
  · simp [bot_guilds_status, hbt, hbi]
  · intro h; subst h; rfl
  · intro gid hmem
    have hcl := bgs_classified oracle guild_ids gid hmem
    refine ⟨?_, ?_, ?_, ?_⟩
    · intro t j ho
      have : classifyGuild (oracle gid) = .present := by simp [classifyGuild, ho]
      rw [this] at hcl; exact hcl
    · intro t j ho
      have : classifyGuild (oracle gid) = .missing := by simp [classifyGuild, ho]
      rw [this] at hcl; exact hcl
    · intro s t j ho hs200 hs404
      have : classifyGuild (oracle gid) =
          .err ("status=" ++ toString s ++ " body=" ++ pyTake t 300) := by
        simp [classifyGuild, ho, hs200, hs404]
      rw [this] at hcl; exact hcl
    · intro m ho
      have : classifyGuild (oracle gid) = .err m := by simp [classifyGuild, ho]
      rw [this] at hcl; exact hcl

/-- Witness for C1 at concrete inputs: credentials set, guilds A (200),
B (404), C (500, body `oops`). -/
theorem C1_guild_presence_partition_witness :
    ∃ r, bot_guilds_status (some "tok") (some "42") ["A", "B", "C"] oraclePartitionW
        = .ok r ∧
      (["A", "B", "C"] = ([] : List String) → r = ⟨[], [], []⟩) ∧
      ∀ gid ∈ ["A", "B", "C"],
        (∀ t j, oraclePartitionW gid = .resp 200 t j →
          gid ∈ r.present ∧ gid ∉ r.missing ∧ dictGet r.errors gid = none) ∧
        (∀ t j, oraclePartitionW gid = .resp 404 t j →
          gid ∉ r.present ∧ gid ∈ r.missing ∧ dictGet r.errors gid = none) ∧
        (∀ s t j, oraclePartitionW gid = .resp s t j → s ≠ 200 → s ≠ 404 →
          gid ∉ r.present ∧ gid ∉ r.missing ∧
            dictGet r.errors gid =
              some ("status=" ++ toString s ++ " body=" ++ pyTake t 300)) ∧
        (∀ m, oraclePartitionW gid = .exc m →
          gid ∉ r.present ∧ gid ∉ r.missing ∧ dictGet r.errors gid = some m) :=
  C1_guild_presence_partition (some "tok") (some "42") rfl rfl ["A", "B", "C"]
    oraclePartitionW

/-! ## Claim C2 -/

/-- C2: failure isolation in `bot_guilds_status` — if the lookup of one id
`b` fails (transport exception or a status other than 200/404, i.e. its
classification is an error), then `b` is recorded in `errors` with that
failure's description, and every id in the list is still classified
according to its own lookup outcome alone, so the failure aborts nothing. -/
theorem C2_guild_presence_isolation (bot_token bot_id : Option String)
    (hbt : pyTruthyS bot_token = true) (hbi : pyTruthyS bot_id = true)
    (guild_ids : List String) (oracle : String → Upstream) (b : String) (m : String)
    (hfail : classifyGuild (oracle b) = .err m) :
    ∃ r, bot_guilds_status bot_token bot_id guild_ids oracle = .ok r ∧
      (b ∈ guild_ids → dictGet r.errors b = some m) ∧
      ∀ gid ∈ guild_ids, classifiedIn r gid (classifyGuild (oracle gid)) := by
  refine ⟨guild_ids.foldl (bgsStep oracle) ⟨[], [], []⟩, ?_, ?_, ?_⟩
  · simp [bot_guilds_status, hbt, hbi]
  · intro hb
    have := bgs_classified oracle guild_ids b hb
    rw [hfail] at this
    exact this.2.2
  · intro gid hmem
    exact bgs_classified oracle guild_ids gid hmem

/-- Witness for C2 at concrete inputs: guild "B" raises a transport
exception while "A" and "C" return 200. -/
theorem C2_guild_presence_isolation_witness :
    ∃ r, bot_guilds_status (some "tok") (some "42") ["A", "B", "C"] oracleIsolationW
        = .ok r ∧
      ("B" ∈ ["A", "B", "C"] → dictGet r.errors "B" = some "boom") ∧
      ∀ gid ∈ ["A", "B", "C"],
        classifiedIn r gid (classifyGuild (oracleIsolationW gid)) :=
  C2_guild_presence_isolation (some "tok") (some "42") rfl rfl ["A", "B", "C"]
    oracleIsolationW "B" "boom" rfl

/-! ## Claim C4 -/

/-- C4: `oauth_exchange` with an absent or empty `code` or `redirect_uri`
replies 400 with no outbound call; with both present and truthy but an unset
`client_id` or `client_secret` it replies 500 with no outbound call. -/
theorem C4_exchange_preconditions (code redirect_uri : Option PyVal)
    (client_id client_secret : Option String) (up : Upstream) :
    ((code = none ∨ code = some (.str "") ∨ redirect_uri = none ∨
        redirect_uri = some (.str "")) →
      oauth_exchange code redirect_uri client_id client_secret up =
        (.reply 400 (.errSimple "missing code or redirect_uri"), 0)) ∧
    (pyTruthyO code = true → pyTruthyO redirect_uri = true →
      (client_id = none ∨ client_secret = none) →
      oauth_exchange code redirect_uri client_id client_secret up =
        (.reply 500 (.errSimple
          "server missing OAuth client credentials (set DISCORD_CLIENT_ID and DISCORD_CLIENT_SECRET)"),
         0)) := by
  constructor
  · intro h
    have hfalse : pyTruthyO code = false ∨ pyTruthyO redirect_uri = false := by
      rcases h with h | h | h | h
      · exact Or.inl (by rw [h]; decide)
      · exact Or.inl (by rw [h]; decide)
      · exact Or.inr (by rw [h]; decide)
      · exact Or.inr (by rw [h]; decide)
    rcases hfalse with h | h <;> simp [oauth_exchange, h]
  · intro h1 h2 h3
    have hfalse : pyTruthyS client_id = false ∨ pyTruthyS client_secret = false := by
      rcases h3 with h | h <;> subst h <;> simp [pyTruthyS]
    rcases hfalse with h | h <;> simp [oauth_exchange, h1, h2, h]

/-- Witness for C4: empty `code` gives a 400 with zero outbound calls, and a
truthy request with no configured `client_id` gives a 500 with zero outbound
calls. -/
theorem C4_exchange_preconditions_witness :
    oauth_exchange (some (.str "")) (some (.str "uri")) (some "id") (some "sec")
        (.exc "unreached") =
      (.reply 400 (.errSimple "missing code or redirect_uri"), 0) ∧
    oauth_exchange (some (.str "c")) (some (.str "uri")) none (some "sec")
        (.exc "unreached") =
      (.reply 500 (.errSimple
        "server missing OAuth client credentials (set DISCORD_CLIENT_ID and DISCORD_CLIENT_SECRET)"),
       0) :=
  ⟨(C4_exchange_preconditions (some (.str "")) (some (.str "uri")) (some "id")
      (some "sec") (.exc "unreached")).1 (Or.inr (Or.inl rfl)),
   (C4_exchange_preconditions (some (.str "c")) (some (.str "uri")) none
      (some "sec") (.exc "unreached")).2 rfl rfl (Or.inl rfl)⟩

/-! ## Claim C3 -/

/-- C3 counterexample: the claim quantifies over every response body that
parses, but a body parsing to the JSON array `[1, 2]` under a 400 status
makes `data.get('error_description')` raise `AttributeError`, so the handler
crashes instead of replying with the upstream status and an error string. -/
theorem C3_exchange_rejection_counterexample :
    oauth_exchange (some (.str "c")) (some (.str "u")) (some "id") (some "sec")
        (.resp 400 "x" (some (.list [.int 1, .int 2]))) =
      (.crash "AttributeError", 1) := rfl

/-- C3 amended: for every call of `oauth_exchange` that reaches Discord and
whose response body parses as a JSON *object*, if the upstream status is not
200 or the object has an `error` key, the reply carries the upstream status
code and the error value `error_description` if truthy, else `error` if
truthy, else the generic `Unknown error` (with the parsed object as `raw`). -/
theorem C3_exchange_rejection_amended (code redirect_uri : Option PyVal)
    (client_id client_secret : Option String)
    (h1 : pyTruthyO code = true) (h2 : pyTruthyO redirect_uri = true)
    (h3 : pyTruthyS client_id = true) (h4 : pyTruthyS client_secret = true)
    (status : Nat) (text : String) (d : Dict)
    (herr : status ≠ 200 ∨ hasKey d "error" = true) :
    oauth_exchange code redirect_uri client_id client_secret
        (.resp status text (some (.dict d))) =
      (.reply status (.errData (errVal d) (.dict d)), 1) := by
  by_cases hs : status = 200
  · subst hs
    rcases herr with h | h
    · exact absurd rfl h
    · simp [oauth_exchange, h1, h2, h3, h4, pyInError, h]
  · simp [oauth_exchange, h1, h2, h3, h4, hs]

/-- Witness for the amended C3: a 401 rejection whose body carries an
`error_description` is forwarded with status 401 and that description. -/
theorem C3_exchange_rejection_amended_witness :
    oauth_exchange (some (.str "c")) (some (.str "u")) (some "id") (some "sec")
        (.resp 401 "body" (some (.dict [("error_description", .str "bad code")]))) =
      (.reply 401 (.errData (errVal [("error_description", .str "bad code")])
        (.dict [("error_description", .str "bad code")])), 1) :=
  C3_exchange_rejection_amended (some (.str "c")) (some (.str "u")) (some "id")
    (some "sec") rfl rfl rfl rfl 401 "body" [("error_description", .str "bad code")]
    (Or.inl (by decide))

/-! ## Claim C5 -/

/-- C5 counterexample: when Discord is reached but the body does not parse,
the handler forwards `resp.status_code` rather than replying 502 — here a
404 with an unparseable body yields a 404 reply, not a 502. -/
theorem C5_exchange_protocol_counterexample :
    oauth_exchange (some (.str "c")) (some (.str "u")) (some "id") (some "sec")
        (.resp 404 "<html>" none) =
      (.reply 404 (.errRaw "Discord token endpoint returned invalid response" "<html>"), 1)
    ∧ (404 : Nat) ≠ 502 :=
  ⟨rfl, by decide⟩

/-- C5 amended: when Discord is reached but its body fails to parse, the
handler replies with the *upstream status code* (not a fixed 502), carrying
the raw upstream text. -/
theorem C5_exchange_protocol_amended (code redirect_uri : Option PyVal)
    (client_id client_secret : Option String)
    (h1 : pyTruthyO code = true) (h2 : pyTruthyO redirect_uri = true)
    (h3 : pyTruthyS client_id = true) (h4 : pyTruthyS client_secret = true)
    (status : Nat) (text : String) :
    oauth_exchange code redirect_uri client_id client_secret (.resp status text none) =
      (.reply status (.errRaw "Discord token endpoint returned invalid response" text), 1) := by
  simp [oauth_exchange, h1, h2, h3, h4]

/-- Witness for the amended C5: a 502 body that fails to parse comes back as
status 502 with the raw text (here matching the claim's 502 only because the
upstream itself answered 502). -/
theorem C5_exchange_protocol_amended_witness :
    oauth_exchange (some (.str "c")) (some (.str "u")) (some "id") (some "sec")
        (.resp 502 "gateway" none) =
      (.reply 502 (.errRaw "Discord token endpoint returned invalid response" "gateway"), 1) :=
  C5_exchange_protocol_amended (some (.str "c")) (some (.str "u")) (some "id")
    (some "sec") rfl rfl rfl rfl 502 "gateway"

/-! ## Claim C6 -/

/-- C6 counterexample: for the same upstream outcome — a reachable 500 whose
body `<html>` does not parse — the two bearer-token endpoints classify
differently: `oauth_me` replies 502 with an error envelope while
`oauth_guilds` passes the upstream 500 and raw body through, so their error
mappings are not identical and the unparseable body does not yield 502 on
`oauth_guilds`. -/
theorem C6_error_mapping_counterexample :
    (oauth_me (some "Bearer tok") upUnparseable500).1
        = .json 502 (.errWith "invalid response from Discord" "<html>") ∧
    (oauth_guilds (some "Bearer tok") upUnparseable500).1 = .raw 500 "<html>" :=
  ⟨rfl, rfl⟩

/-- C6 amended: `oauth_guilds` and `oauth_me` agree on the missing/malformed
`Authorization` header (both 401 with the same error body, no outbound call)
and on a transport failure (both 502 with the same error body); but on a
reachable response they differ: `oauth_me` maps an unparseable body to a 502
envelope, while `oauth_guilds` forwards the upstream status and raw content
without parsing at all. -/
theorem C6_error_mapping_amended (auth : Option String) (up : String → Upstream) :
    (bearerAuthFails auth = true →
      oauth_me auth up = (.json 401 (.errObj authErrMsg), 0) ∧
      oauth_guilds auth up = (.json 401 (.errObj authErrMsg), 0)) ∧
    (∀ a token, auth = some a → bearerAuthFails auth = false →
      (pySplitNone1 a).get? 1 = some token →
      (∀ m, up token = .exc m →
        oauth_me auth up = (.json 502 (.errWith "failed to contact Discord API" m), 1) ∧
        oauth_guilds auth up =
          (.json 502 (.errWith "failed to contact Discord API" m), 1)) ∧
      (∀ s t, up token = .resp s t none →
        oauth_me auth up =
          (.json 502 (.errWith "invalid response from Discord" (pyTake t 200)), 1) ∧
        oauth_guilds auth up = (.raw s t, 1))) := by
  constructor
  · intro h
    constructor <;> simp [oauth_me, oauth_guilds, h]
  · intro a token ha hok htok
    subst ha
    simp only [List.get?_eq_getElem?] at htok
    constructor
    · intro m hup
      constructor <;> simp [oauth_me, oauth_guilds, hok, htok, hup]
    · intro s t hup
      constructor <;> simp [oauth_me, oauth_guilds, hok, htok, hup]

/-- Witness for the amended C6: with a well-formed header and an upstream
transport exception, both endpoints reply 502 with the same envelope. -/
theorem C6_error_mapping_amended_witness :
    oauth_me (some "Bearer tok") upExcW =
      (.json 502 (.errWith "failed to contact Discord API" "timeout"), 1) ∧
    oauth_guilds (some "Bearer tok") upExcW =
      (.json 502 (.errWith "failed to contact Discord API" "timeout"), 1) :=
  ((C6_error_mapping_amended (some "Bearer tok") upExcW).2 "Bearer tok" "tok"
    rfl rfl rfl).1 "timeout" rfl

/-! ## Claim C7 -/

/-- C7: the header `Bearer ` (scheme, one space, no token) passes the shape
guard of both bearer-token endpoints, but `auth.split(None, 1)` then yields
the single chunk `Bearer`, so indexing `[1]` raises an uncaught `IndexError`
and the handler crashes with no outbound call — the code neither attempts
the upstream call with an empty token nor replies 401, contradicting the
claim's two allowed policies (the crash is at least consistent across both
endpoints). -/
theorem C7_empty_token_crash :
    oauth_me (some "Bearer ") upOkEmptyObj = (.crash "IndexError", 0) ∧
    oauth_guilds (some "Bearer ") upOkEmptyObj = (.crash "IndexError", 0) ∧
    bearerAuthFails (some "Bearer ") = false :=
  ⟨rfl, rfl, rfl⟩

/-! ## Claim C9 -/

/-- C9 counterexample: the claim quantifies over every body that parses as
JSON, but a 401 body parsing to the JSON array `[]` makes the logging call
`response_data.get('username', 'unknown')` raise `AttributeError`, so
`oauth_me` crashes instead of replying 200 with the parsed body. -/
theorem C9_me_relay_counterexample :
    oauth_me (some "Bearer tok") upArray401 = (.crash "AttributeError", 1) := rfl

/-- C9 amended: whenever `oauth_me` reaches Discord and the response body
parses as a JSON *object*, the endpoint replies 200 with that object
regardless of Discord's own status code, which is never forwarded. -/
theorem C9_me_relay_amended (auth : Option String) (a token : String)
    (up : String → Upstream) (ha : auth = some a)
    (hok : bearerAuthFails auth = false)
    (htok : (pySplitNone1 a).get? 1 = some token)
    (s : Nat) (t : String) (d : Dict)
    (hup : up token = .resp s t (some (.dict d))) :
    oauth_me auth up = (.json 200 (.okVal (.dict d)), 1) := by
  subst ha
  simp only [List.get?_eq_getElem?] at htok
  simp [oauth_me, hok, htok, hup]

/-- Witness for the amended C9: a Discord 401 error object is relayed to the
caller as a 200 reply carrying that object. -/
theorem C9_me_relay_amended_witness :
    oauth_me (some "Bearer tok") upObj401 =
      (.json 200 (.okVal (.dict [("message", .str "401: Unauthorized")])), 1) :=
  C9_me_relay_amended (some "Bearer tok") "Bearer tok" "tok" upObj401 rfl rfl rfl
    401 "e" [("message", .str "401: Unauthorized")] rfl

/-! ## Claim C8 -/

/-- C8 counterexample: the claim says the operation never fails and that a
malformed patch is treated as an empty mapping, but a body parsing to the
JSON array `[1, 2]` is truthy, so it is passed to `bot_stats.update`, whose
first element cannot be converted to a key/value pair — the handler raises
an uncaught `TypeError` (reported as a 500) instead of a success reply. -/
theorem C8_update_stats_counterexample :
    (update_stats bot_stats_init (some (.list [.int 1, .int 2]))).2 = UpdOut.crash :=
  rfl

/-- C8 amended: an absent (or falsy) patch body is treated as an empty
mapping and yields success, and a body parsing to a JSON object is merged
key-by-key into the stored mapping (new keys added, existing keys
overwritten) with the resulting full mapping returned; but a truthy
non-object body is handed to the merge unvalidated and raises an uncaught
exception, so the operation is not failure-free for every body. -/
theorem C8_update_stats_amended (stats : Dict) (p : Dict) :
    update_stats stats none = (stats, .success stats) ∧
    update_stats stats (some (.dict p)) =
      (dictUpdate stats p, .success (dictUpdate stats p)) := by
  constructor
  · rfl
  · cases p <;> rfl

/-! ## Claim C10 -/

/-- C10: `/stats` writes the uptime string freshly recomputed from the
elapsed seconds into the shared mapping itself, leaves every other key
unchanged, and replies with that updated mapping; hence any `uptime` value
installed through `/update_stats` is overwritten by the next `/stats` call,
and two consecutive `/stats` results both carry the freshly computed string
(a function of the elapsed time only, not of the installed value). -/
theorem C10_stats_uptime_overwrite (e1 e2 : Nat) (m : Dict) (v : PyVal) :
    (statsGet e1 m).1 = dictSet m "uptime" (.str (fmtUptime e1)) ∧
    (statsGet e1 m).2 = (statsGet e1 m).1 ∧
    (∀ k, k ≠ "uptime" → dictGet (statsGet e1 m).1 k = dictGet m k) ∧
    dictGet (statsGet e1 (update_stats m (some (.dict [("uptime", v)]))).1).2 "uptime"
      = some (.str (fmtUptime e1)) ∧
    dictGet (statsGet e2 ((statsGet e1 m).1)).2 "uptime"
      = some (.str (fmtUptime e2)) := by
  refine ⟨rfl, rfl, ?_, ?_, ?_⟩
  · intro k hk
    simp [statsGet, dictGet_dictSet, hk]
  · simp [statsGet, dictGet_dictSet]
  · simp [statsGet, dictGet_dictSet]

/-- Witness for C10: recomputing the uptime at 7265 elapsed seconds leaves
the `servers` entry of the initial stats dictionary unchanged. -/
theorem C10_stats_uptime_overwrite_witness :
    dictGet (statsGet 7265 bot_stats_init).1 "servers" =
      dictGet bot_stats_init "servers" :=
  (C10_stats_uptime_overwrite 7265 0 bot_stats_init .null).2.2.1 "servers"
    (by decide)

end DiscordBackend
